import Mathlib

/-!
Verification of the zerospoof email-authentication scanner.

The scanner resolves a domain's MX / SPF / DKIM / DMARC DNS records and
grades them.  DNS is modelled as a `DNSWorld`: a pure assignment of
responses to queries (the resolver maps every transport failure to the
empty answer, so a world of plain response values is the resolver's whole
observable behaviour).  Each checker from `src/scanner/checkers` is
translated into a pure Lean function from the world to a `CheckResult`,
and the scoring engine into a function producing a `ScanResult`.

Python string primitives used by the source (str.split, str.strip,
str.lower, str.startswith, substring tests, int()) are embedded over
`List Char`; `base64.b64decode` is embedded by the exact quad-state
length semantics of CPython's `binascii.a2b_base64` in non-strict mode,
restricted to the alphabet `[A-Za-z0-9+/=]` that the DKIM checker's
regular expression guarantees.
-/

/-- Python `str.isspace` characters relevant to `str.split()` (ASCII). -/
def pyIsSpace (c : Char) : Bool :=
  c = ' ' ∨ c = '\t' ∨ c = '\n' ∨ c = '\r' ∨ c = '\x0b' ∨ c = '\x0c'

/-- Python `str.lower` (ASCII letters; records and domains are ASCII). -/
def pyLower (s : String) : String := String.mk (s.data.map Char.toLower)

/-- Python `str.startswith`. -/
def pyStartsWith (s pre : String) : Bool := pre.data.isPrefixOf s.data

/-- Python `str.endswith`. -/
def pyEndsWith (s suf : String) : Bool := suf.data.isSuffixOf s.data

/-- Whether `needle` occurs as a contiguous substring of `hay` (Python `in`). -/
def containsSub (needle : List Char) : List Char → Bool
  | [] => needle.isPrefixOf []
  | c :: t => needle.isPrefixOf (c :: t) || containsSub needle t

/-- Python `needle in hay` on strings. -/
def pyContains (hay needle : String) : Bool := containsSub needle.data hay.data

/-- Helper for `pySplitWs`: accumulate the current word (reversed). -/
def splitWsAux : List Char → List Char → List String
  | [], acc => if acc = [] then [] else [String.mk acc.reverse]
  | c :: rest, acc =>
    if pyIsSpace c then
      if acc = [] then splitWsAux rest []
      else String.mk acc.reverse :: splitWsAux rest []
    else splitWsAux rest (c :: acc)

/-- Python `str.split()` with no argument: split on whitespace runs, no empties. -/
def pySplitWs (s : String) : List String := splitWsAux s.data []

/-- Python `str.strip()`. -/
def pyStrip (s : String) : String :=
  String.mk (((s.data.dropWhile pyIsSpace).reverse.dropWhile pyIsSpace).reverse)

/-- Helper for `pySplitOn`: accumulate the current piece (reversed). -/
def splitCharAux (sep : Char) : List Char → List Char → List String
  | [], acc => [String.mk acc.reverse]
  | c :: rest, acc =>
    if c = sep then String.mk acc.reverse :: splitCharAux sep rest []
    else splitCharAux sep rest (c :: acc)

/-- Python `str.split(sep)` for a one-character separator: keeps empty
pieces, `"".split(sep) == [""]`. -/
def pySplitOn (s : String) (sep : Char) : List String := splitCharAux sep s.data []

/-- Python `s.split(sep, 1)` for a one-character separator, assuming it occurs. -/
def splitOnce (s : String) (c : Char) : String × String :=
  let pre := s.data.takeWhile (fun d => ¬ d = c)
  (String.mk pre, String.mk (s.data.drop (pre.length + 1)))

/-- Digits of a Python integer literal body: digits with single underscores
between digits, as `int()` accepts.  State: accumulator and whether the
previous character was a digit. -/
def pyDigitsAux : List Char → Nat → Bool → Option Nat
  | [], acc, lastDigit => if lastDigit then some acc else none
  | c :: rest, acc, lastDigit =>
    if c = '_' then
      if lastDigit then pyDigitsAux rest acc false else none
    else if '0' ≤ c ∧ c ≤ '9' then
      pyDigitsAux rest (acc * 10 + (c.toNat - '0'.toNat)) true
    else none

/-- Python `int(s)` on ASCII input: strip whitespace, optional sign, digits.
`none` models the `ValueError`. -/
def pyInt? (s : String) : Option Int :=
  let t := ((s.data.dropWhile pyIsSpace).reverse.dropWhile pyIsSpace).reverse
  match t with
  | '+' :: rest => (pyDigitsAux rest 0 false).map Int.ofNat
  | '-' :: rest => (pyDigitsAux rest 0 false).map (fun n => -(Int.ofNat n))
  | _ => (pyDigitsAux t 0 false).map Int.ofNat

/-- Assoc-list embedding of a Python dict: assignment overwrites an existing
key in place, else appends (insertion order preserved). -/
def dictSet {α : Type} (d : List (String × α)) (k : String) (v : α) :
    List (String × α) :=
  if d.any (fun kv => kv.1 = k) then
    d.map (fun kv => if kv.1 = k then (k, v) else kv)
  else d ++ [(k, v)]

/-- Python `d.get(k, default)`. -/
def dictGetD {α : Type} (d : List (String × α)) (k : String) (dflt : α) : α :=
  match d.find? (fun kv => kv.1 = k) with
  | some kv => kv.2
  | none => dflt

/-- One parsed SPF mechanism, the dict appended by `SPFChecker._parse_spf`. -/
structure SPFMech where
  qualifier : String
  mechanism : String
  value : Option String
deriving DecidableEq, Repr

/-- A parsed value stored in a checker's `parsed_data` mapping. -/
inductive PVal where
  | str : String → PVal
  | int : Int → PVal
  | bool : Bool → PVal
  | none : PVal
  | strList : List String → PVal
  | mechs : List SPFMech → PVal
  | mxRecs : List (Int × String) → PVal
  | intDict : List (String × Int) → PVal
  | strDict : List (String × String) → PVal
deriving DecidableEq, Repr

/-- `CheckResult` from `src/scanner/checkers/base.py`: one control's result.
Messages are (level, text) pairs. -/
structure CheckResult where
  control : String
  points : Int
  max_points : Int
  messages : List (String × String) := []
  raw_records : List String := []
  parsed_data : List (String × PVal) := []
  remediation : List String := []
deriving DecidableEq, Repr

/-- `CheckResult.add_message`. -/
def addMessage (r : CheckResult) (level text : String) : CheckResult :=
  { r with messages := r.messages ++ [(level, text)] }

/-- `CheckResult.add_remediation`. -/
def addRemediation (r : CheckResult) (text : String) : CheckResult :=
  { r with remediation := r.remediation ++ [text] }

/-- The DNS responses a scan observes: one pure assignment per query type.
`DNSResolver._query` maps every failure (NoAnswer, NXDOMAIN, timeout, …) to
an absent answer, so empty lists / `none` cover those cases.  `mxRaw` is the
answer in response order, before `resolve_mx` sorts it. -/
structure DNSWorld where
  mxRaw : String → List (Int × String)
  txt : String → List String
  a : String → List String
  aaaa : String → List String
  cname : String → Option String

/-- Stable insertion of an MX record into a priority-sorted list (keeps
earlier-inserted records first among equal priorities, as Python's stable
`sorted` does). -/
def insertMx (x : Int × String) : List (Int × String) → List (Int × String)
  | [] => [x]
  | y :: ys => if x.1 < y.1 then x :: y :: ys else y :: insertMx x ys

/-- `DNSResolver.resolve_mx`: records sorted ascending by priority, stably. -/
def resolveMx (w : DNSWorld) (domain : String) : List (Int × String) :=
  (w.mxRaw domain).foldl (fun acc x => insertMx x acc) []

/-- `DNSResolver.host_exists`: any A record, else any AAAA record. -/
def hostExists (w : DNSWorld) (hostname : String) : Bool :=
  if w.a hostname ≠ [] then true else (w.aaaa hostname).length > 0

/-- `DNSResolver.get_spf_record`: first TXT record whose value
case-insensitively starts with `v=spf1`. -/
def getSpfRecord (w : DNSWorld) (domain : String) : Option String :=
  (w.txt domain).find? (fun record => pyStartsWith (pyLower record) "v=spf1")

/-- `DNSResolver.get_dmarc_record`: TXT at `_dmarc.<domain>` filtered to
records starting with `v=dmarc1`; returns (first, all). -/
def getDmarcRecord (w : DNSWorld) (domain : String) :
    Option String × List String :=
  let dmarc_records :=
    (w.txt ("_dmarc." ++ domain)).filter
      (fun record => pyStartsWith (pyLower record) "v=dmarc1")
  match dmarc_records with
  | [] => (none, [])
  | r :: rest => (some r, r :: rest)

/-- `DNSResolver.get_dkim_record`: follow a CNAME once if present (a
truthy, nonempty target), else query TXT directly; first record containing
`v=dkim1`, `k=` or `p=` case-insensitively. -/
def getDkimRecord (w : DNSWorld) (domain selector : String) : Option String :=
  let dkim_domain := selector ++ "._domainkey." ++ domain
  let txt_records :=
    match w.cname dkim_domain with
    | some c => if c ≠ "" then w.txt c else w.txt dkim_domain
    | none => w.txt dkim_domain
  txt_records.find? (fun record =>
    pyContains (pyLower record) "v=dkim1" ∨ pyContains (pyLower record) "k="
      ∨ pyContains (pyLower record) "p=")

/-- `DNSResolver.get_dkim_cname`. -/
def getDkimCname (w : DNSWorld) (domain selector : String) : Option String :=
  w.cname (selector ++ "._domainkey." ++ domain)

/-- `EmailProvider` from `src/scanner/services/provider_detector.py`. -/
inductive EmailProvider where
  | microsoft365
  | google_workspace
  | unknown
deriving DecidableEq, Repr

/-- `EmailProvider.value`. -/
def providerValue : EmailProvider → String
  | .microsoft365 => "microsoft365"
  | .google_workspace => "google_workspace"
  | .unknown => "unknown"

/-- `ProviderDetector.MX_PATTERNS` (suffix, provider), in source order. -/
def MX_PATTERNS : List (String × EmailProvider) :=
  [(".mail.protection.outlook.com", .microsoft365),
   (".google.com", .google_workspace),
   (".googlemail.com", .google_workspace),
   ("aspmx.l.google.com", .google_workspace)]

/-- Python `str.lstrip('.')`. -/
def lstripDot (s : String) : String := String.mk (s.data.dropWhile (· = '.'))

/-- `ProviderDetector.detect`: first host (records already priority-sorted)
matching a pattern by suffix or by equality to the pattern stripped of its
leading dot; no match means unknown. -/
def detect (mx_records : List (Int × String)) : EmailProvider :=
  if mx_records = [] then .unknown
  else
    match mx_records.findSome? (fun r =>
      MX_PATTERNS.findSome? (fun pp =>
        if pyEndsWith (pyLower r.2) pp.1 ∨ pyLower r.2 = lstripDot pp.1 then
          some pp.2
        else none)) with
    | some p => p
    | none => .unknown

/-- `VALID_SPF_MECHANISMS` from `src/scanner/constants.py`. -/
def VALID_SPF_MECHANISMS : List String :=
  ["all", "include", "a", "mx", "ptr", "ip4", "ip6", "exists", "redirect", "exp"]

/-- `SPF_LOOKUP_MECHANISMS` from `src/scanner/constants.py`. -/
def SPF_LOOKUP_MECHANISMS : List String :=
  ["include", "a", "mx", "ptr", "exists", "redirect"]

/-- The dict built by `SPFChecker._parse_spf` (fixed keys, so a structure). -/
structure SPFParse where
  mechanisms : List SPFMech := []
  terminal : Option String := none
  lookup_count : Int := 0
  syntax_errors : List String := []
  duplicates : List String := []
  has_ptr : Bool := false
  hosts_to_check : List String := []
  include_count : Int := 0
deriving DecidableEq, Repr

/-- One iteration of `_parse_spf`'s token loop; the second component is the
`seen_mechanisms` set (membership is all that is used of it). -/
def spfStep (acc : SPFParse × List String) (part : String) : SPFParse × List String :=
  let res := acc.1
  let seen := acc.2
  let part_lower := pyLower part
  if part_lower = "-all" ∨ part_lower = "~all" ∨ part_lower = "+all"
      ∨ part_lower = "?all" then
    ({ res with terminal := some part_lower }, seen)
  else if part_lower = "all" then
    ({ res with terminal := some "+all" }, seen)  -- implicit +
  else
    let qp : String × String :=
      match part.data with
      | c :: rest =>
        if c = '+' ∨ c = '-' ∨ c = '~' ∨ c = '?' then
          (String.mk [c], String.mk rest)
        else ("+", part)
      | [] => ("+", part)
    let qualifier := qp.1
    let part := qp.2
    let nv : String × Option String :=
      if pyContains part ":" then
        let two := splitOnce part ':'
        (two.1, some two.2)
      else if pyContains part "=" then
        let two := splitOnce part '='
        (two.1, some two.2)
      else if pyContains part "/" then
        (String.mk (part.data.takeWhile (fun d => ¬ d = '/')), some part)
      else (part, none)
    let mech_name := nv.1
    let mech_value := nv.2
    let mech_name_lower := pyLower mech_name
    if mech_name_lower ∉ VALID_SPF_MECHANISMS then
      ({ res with syntax_errors :=
          res.syntax_errors ++ ["Unknown mechanism: " ++ mech_name] }, seen)
    else
      let res := { res with mechanisms :=
        res.mechanisms ++ [⟨qualifier, mech_name_lower, mech_value⟩] }
      let mech_key :=
        match mech_value with
        | some v => if v ≠ "" then mech_name_lower ++ ":" ++ v else mech_name_lower
        | none => mech_name_lower
      let res :=
        if mech_key ∈ seen then
          { res with duplicates := res.duplicates ++ [mech_key] }
        else res
      let seen := seen ++ [mech_key]
      let res :=
        if mech_name_lower ∈ SPF_LOOKUP_MECHANISMS then
          let res := { res with lookup_count := res.lookup_count + 1 }
          match mech_value with
          | some v =>
            if v ≠ "" ∧ (mech_name_lower = "a" ∨ mech_name_lower = "mx") then
              { res with hosts_to_check := res.hosts_to_check ++ [v] }
            else res
          | none => res
        else res
      let res := if mech_name_lower = "ptr" then { res with has_ptr := true } else res
      let res :=
        if mech_name_lower = "include" then
          { res with include_count := res.include_count + 1 }
        else res
      (res, seen)

/-- `SPFChecker._parse_spf`. -/
def parseSpf (spf : String) : SPFParse :=
  let parts := pySplitWs spf
  match parts with
  | [] => { syntax_errors := ["Missing or invalid v=spf1"] }
  | p0 :: rest =>
    if ¬ pyStartsWith (pyLower p0) "v=spf1" then
      { syntax_errors := ["Missing or invalid v=spf1"] }
    else
      (rest.foldl spfStep ({}, [])).1

/-- `result.parsed_data = parsed` for SPF: the parse dict in key-creation
order. -/
def spfParsedData (p : SPFParse) : List (String × PVal) :=
  [("mechanisms", PVal.mechs p.mechanisms),
   ("terminal", match p.terminal with | some t => PVal.str t | none => PVal.none),
   ("lookup_count", PVal.int p.lookup_count),
   ("syntax_errors", PVal.strList p.syntax_errors),
   ("duplicates", PVal.strList p.duplicates),
   ("has_ptr", PVal.bool p.has_ptr),
   ("hosts_to_check", PVal.strList p.hosts_to_check),
   ("include_count", PVal.int p.include_count)]

/-- SPF check 2: syntax validity (no unknown mechanisms, no duplicates). -/
def spfSyntaxStep (parsed : SPFParse) (result : CheckResult) : CheckResult :=
  if parsed.syntax_errors = [] ∧ parsed.duplicates = [] then
    addMessage { result with points := result.points + 5 } "success"
      "SPF syntax is valid"
  else
    let result :=
      if parsed.syntax_errors ≠ [] then
        addRemediation
          (parsed.syntax_errors.foldl
            (fun r e => addMessage r "error" ("Syntax error: " ++ e)) result)
          "Fix SPF syntax errors"
      else result
    if parsed.duplicates ≠ [] then
      addRemediation
        (addMessage result "warning"
          ("Duplicate mechanisms: " ++ String.intercalate ", " parsed.duplicates))
        "Remove duplicate mechanisms from SPF record"
    else result

/-- SPF check 3: DNS lookup count against the 10-lookup budget. -/
def spfLookupStep (parsed : SPFParse) (result : CheckResult) : CheckResult :=
  let lookup_count := parsed.lookup_count
  let result := { result with
    parsed_data := dictSet result.parsed_data "lookup_count" (PVal.int lookup_count) }
  if lookup_count ≤ 10 then
    addMessage { result with points := result.points + 2 } "success"
      ("DNS lookups: " ++ toString lookup_count ++ "/10")
  else
    addRemediation
      (addMessage result "error"
        ("Too many DNS lookups: " ++ toString lookup_count ++ "/10 (SPF may fail)"))
      "Reduce DNS lookups by flattening includes or using ip4/ip6 instead"

/-- SPF check 4: all `a`/`mx` hosts resolve (not `include` targets). -/
def spfHostsStep (w : DNSWorld) (parsed : SPFParse) (result : CheckResult) :
    CheckResult :=
  let hosts_to_check := parsed.hosts_to_check
  let unresolved := hosts_to_check.filter (fun host => ¬ hostExists w host)
  let result := { result with
    parsed_data := dictSet result.parsed_data "unresolved_hosts"
      (PVal.strList unresolved) }
  if hosts_to_check = [] ∨ unresolved = [] then
    addMessage { result with points := result.points + 3 } "success"
      "All referenced hosts resolve"
  else
    addRemediation
      (addMessage result "warning"
        ("Unresolved hosts: " ++ String.intercalate ", " unresolved))
      ("Fix or remove references to unresolved hosts: "
        ++ String.intercalate ", " unresolved)

/-- SPF check 5: terminal qualifier strength. -/
def spfTerminalStep (parsed : SPFParse) (result : CheckResult) : CheckResult :=
  if parsed.terminal = some "-all" then
    addMessage { result with points := result.points + 6 } "success"
      "SPF uses -all (strict reject)"
  else if parsed.terminal = some "~all" then
    addRemediation
      (addMessage { result with points := result.points + 3 } "warning"
        "SPF uses ~all (soft fail) - consider upgrading to -all")
      "Change ~all to -all for stricter enforcement"
  else if parsed.terminal = some "?all" then
    addRemediation
      (addMessage result "warning"
        "SPF uses ?all (neutral) - this provides no protection")
      "Change ?all to -all for protection"
  else
    addRemediation
      (addMessage result "warning" "SPF missing terminal 'all' mechanism")
      "Add -all at the end of your SPF record"

/-- SPF check 6: no deprecated `ptr`, no excessive includes. -/
def spfHygieneStep (parsed : SPFParse) (result : CheckResult) : CheckResult :=
  let has_ptr := parsed.has_ptr
  let excessive_includes := parsed.include_count > 5
  if ¬ has_ptr ∧ ¬ excessive_includes then
    addMessage { result with points := result.points + 4 } "success"
      "No deprecated ptr mechanism used"
  else
    let result :=
      if has_ptr then
        addRemediation
          (addMessage result "warning"
            "SPF uses ptr mechanism (deprecated and unreliable)")
          "Remove ptr mechanism from SPF record"
      else result
    if excessive_includes then
      addMessage result "info"
        ("Many includes (" ++ toString parsed.include_count ++ ") - consider flattening")
    else result

/-- `SPFChecker.check` (25 points): existence, then the +all override, then
checks 2-6 in source order. -/
def spfCheck (w : DNSWorld) (domain : String) : CheckResult :=
  let result : CheckResult := { control := "spf", points := 0, max_points := 25 }
  match getSpfRecord w domain with
  | none =>
    addRemediation (addMessage result "error" "No SPF record found")
      "Add an SPF record: v=spf1 include:<your-mail-provider> -all"
  | some spf_record =>
    let result := { result with raw_records := [spf_record] }
    -- Check 1: SPF record exists
    let result :=
      addMessage { result with points := result.points + 5 } "success"
        "SPF record found"
    let parsed := parseSpf spf_record
    let result := { result with parsed_data := spfParsedData parsed }
    -- Check for +all (immediate fail)
    if parsed.terminal = some "+all" then
      addRemediation
        (addMessage { result with points := 0 } "error"
          "SPF uses +all which allows anyone to spoof your domain")
        "Change +all to -all to reject unauthorized senders"
    else
      spfHygieneStep parsed
        (spfTerminalStep parsed
          (spfHostsStep w parsed
            (spfLookupStep parsed
              (spfSyntaxStep parsed result))))

/-- `DMARCChecker._parse_dmarc`: split on `;`, strip, split each part on the
first `=`, lower-case and strip tag names, strip values. -/
def parseDmarc (dmarc : String) : List (String × String) :=
  let parts := (pySplitOn dmarc ';').map pyStrip
  parts.foldl
    (fun acc part =>
      if pyContains part "=" then
        let tv := splitOnce part '='
        dictSet acc (pyLower (pyStrip tv.1)) (pyStrip tv.2)
      else acc)
    []

/-- `DMARCChecker._parse_uris`: comma-split, strip, keep `mailto:` URIs. -/
def parseUris (uri_string : String) : List String :=
  if uri_string = "" then []
  else
    ((pySplitOn uri_string ',').map pyStrip).filter
      (fun uri => pyStartsWith (pyLower uri) "mailto:")

/-- DMARC check 2: policy strength (`p` tag). -/
def dmarcPolicyStep (policy : String) (result : CheckResult) : CheckResult :=
  if policy = "reject" then
    addMessage { result with points := result.points + 15 } "success"
      "DMARC policy is 'reject' (strongest)"
  else if policy = "quarantine" then
    addRemediation
      (addMessage { result with points := result.points + 10 } "warning"
        "DMARC policy is 'quarantine' - consider upgrading to 'reject'")
      "Upgrade DMARC policy from p=quarantine to p=reject"
  else if policy = "none" then
    addRemediation
      (addMessage result "warning"
        "DMARC policy is 'none' (monitoring only, no protection)")
      "Upgrade DMARC policy to p=quarantine or p=reject after analyzing reports"
  else
    addRemediation
      (addMessage result "error" "DMARC policy (p=) not specified or invalid")
      "Add a policy tag: p=reject"

/-- DMARC check 3: aggregate reports (`rua` tag). -/
def dmarcRuaStep (parsed : List (String × String)) (result : CheckResult) :
    CheckResult :=
  let rua := dictGetD parsed "rua" ""
  let rua_uris := parseUris rua
  let result := { result with
    parsed_data := dictSet result.parsed_data "rua_uris" (PVal.strList rua_uris) }
  if rua_uris ≠ [] then
    addMessage { result with points := result.points + 5 } "success"
      ("Aggregate reporting configured: " ++ toString rua_uris.length
        ++ " recipient(s)")
  else
    addRemediation
      (addMessage result "warning" "No aggregate reporting (rua) configured")
      "Add rua=mailto:dmarc-reports@yourdomain.com for visibility"

/-- DMARC check 4: alignment (`adkim`, `aspf`; default relaxed). -/
def dmarcAlignStep (parsed : List (String × String)) (result : CheckResult) :
    CheckResult :=
  let adkim := pyLower (dictGetD parsed "adkim" "r")
  let aspf := pyLower (dictGetD parsed "aspf" "r")
  let result := { result with
    parsed_data := dictSet result.parsed_data "adkim" (PVal.str adkim) }
  let result := { result with
    parsed_data := dictSet result.parsed_data "aspf" (PVal.str aspf) }
  let strict_count : Int :=
    (if adkim = "s" then 1 else 0) + (if aspf = "s" then 1 else 0)
  if strict_count = 2 then
    addMessage { result with points := result.points + 5 } "success"
      "Both DKIM and SPF alignment are strict"
  else if strict_count = 1 then
    let strict_which := if adkim = "s" then "DKIM" else "SPF"
    let relaxed_which := if adkim = "s" then "SPF" else "DKIM"
    addRemediation
      (addMessage { result with points := result.points + 3 } "info"
        (strict_which ++ " alignment is strict, " ++ relaxed_which ++ " is relaxed"))
      ("Consider setting " ++ pyLower relaxed_which ++ " alignment to strict (a"
        ++ String.mk ((pyLower relaxed_which).data.take 1) ++ "=s)")
  else
    addRemediation
      (addMessage result "info" "Both DKIM and SPF alignment are relaxed (default)")
      "Consider strict alignment (adkim=s; aspf=s) for better protection"

/-- DMARC check 5: failure reporting options (`fo`; default "0"). -/
def dmarcFoStep (parsed : List (String × String)) (result : CheckResult) :
    CheckResult :=
  let fo := dictGetD parsed "fo" "0"
  let result := { result with
    parsed_data := dictSet result.parsed_data "fo" (PVal.str fo) }
  if pyContains fo "1" ∨ pyContains fo "s" ∨ pyContains fo "d" then
    addMessage { result with points := result.points + 3 } "success"
      ("Failure reporting enabled (fo=" ++ fo ++ ")")
  else
    addRemediation
      (addMessage result "info"
        "Failure reporting set to default (fo=0, only on full failure)")
      "Add fo=1 for detailed failure reports"

/-- DMARC check 6: percentage (`pct`; default "100", 100 on parse failure). -/
def dmarcPctStep (parsed : List (String × String)) (result : CheckResult) :
    CheckResult :=
  let pct_str := dictGetD parsed "pct" "100"
  let pct := (pyInt? pct_str).getD 100
  let result := { result with
    parsed_data := dictSet result.parsed_data "pct" (PVal.int pct) }
  if pct = 100 then
    addMessage { result with points := result.points + 2 } "success"
      "Policy applies to 100% of messages"
  else if pct > 0 then
    addRemediation
      (addMessage { result with points := result.points + 1 } "info"
        ("Policy applies to " ++ toString pct ++ "% of messages (rollout mode)"))
      "Increase pct to 100 after testing"
  else
    addRemediation
      (addMessage result "warning" "pct=0 means policy is not being applied")
      "Set pct to 100 to enforce your policy"

/-- DMARC check 7: subdomain policy (`sp`), scored against the parent policy. -/
def dmarcSpStep (parsed : List (String × String)) (policy : String)
    (result : CheckResult) : CheckResult :=
  let sp := pyLower (dictGetD parsed "sp" "")
  let parent_policy := policy
  if sp ≠ "" then
    let result := { result with
      parsed_data := dictSet result.parsed_data "sp" (PVal.str sp) }
    if sp = parent_policy ∨ (parent_policy = "" ∧ sp = "none") then
      addMessage { result with points := result.points + 2 } "success"
        ("Subdomain policy (sp=" ++ sp ++ ") is set")
    else if sp = "reject" ∨ sp = "quarantine" ∨ sp = "none" then
      addMessage { result with points := result.points + 2 } "info"
        ("Subdomain policy (sp=" ++ sp ++ ") differs from parent ("
          ++ parent_policy ++ ")")
    else
      addMessage result "warning" ("Invalid subdomain policy: sp=" ++ sp)
  else
    addMessage result "info" "No subdomain policy (sp) set - inherits parent policy"

/-- Checks 2-7 of `DMARCChecker.check`, applied in source order to the
result that existence handling produced. -/
def dmarcScoreTags (parsed : List (String × String)) (result : CheckResult) :
    CheckResult :=
  let policy := pyLower (dictGetD parsed "p" "")
  let result := dmarcPolicyStep policy result
  let result := dmarcRuaStep parsed result
  let result := dmarcAlignStep parsed result
  let result := dmarcFoStep parsed result
  let result := dmarcPctStep parsed result
  dmarcSpStep parsed policy result

/-- `DMARCChecker.check` (40 points). -/
def dmarcCheck (w : DNSWorld) (domain : String) : CheckResult :=
  let result : CheckResult := { control := "dmarc", points := 0, max_points := 40 }
  let pr := getDmarcRecord w domain
  let result :=
    if pr.2 ≠ [] then { result with raw_records := pr.2 } else result
  match pr.1 with
  | none =>
    addRemediation (addMessage result "error" "No DMARC record found")
      "Add a DMARC record: _dmarc.yourdomain.com TXT \"v=DMARC1; p=reject; rua=mailto:dmarc@yourdomain.com\""
  | some dmarc_record =>
    -- Check 1: DMARC record exists and is unique
    let result :=
      if 1 < pr.2.length then
        addRemediation
          (addMessage result "warning"
            ("Multiple DMARC records found (" ++ toString pr.2.length
              ++ ") - this may cause issues"))
          "Remove duplicate DMARC records, keep only one"
      else
        addMessage { result with points := result.points + 10 } "success"
          "DMARC record found and unique"
    let parsed := parseDmarc dmarc_record
    let result := { result with
      parsed_data := parsed.map (fun kv => (kv.1, PVal.str kv.2)) }
    dmarcScoreTags parsed result

/-- `COMMON_DKIM_SELECTORS` from `src/scanner/constants.py`. -/
def COMMON_DKIM_SELECTORS : List String :=
  ["selector1", "selector2", "google", "default", "dkim", "mail", "k1",
   "s1", "s2", "smtp", "mandrill", "mxvault", "everlytickey1", "everlytickey2"]

/-- `M365_DKIM_SELECTORS` from `src/scanner/constants.py`. -/
def M365_DKIM_SELECTORS : List String := ["selector1", "selector2"]

/-- A character of the class `[A-Za-z0-9+/=]` used by the `p=` regex. -/
def isB64Char (c : Char) : Bool :=
  ('A' ≤ c ∧ c ≤ 'Z') ∨ ('a' ≤ c ∧ c ≤ 'z') ∨ ('0' ≤ c ∧ c ≤ '9')
    ∨ c = '+' ∨ c = '/' ∨ c = '='

/-- `re.search(r'p=([A-Za-z0-9+/=]+)', record)`: scan left to right for a
position matching `p`, `=`, then a nonempty greedy run of alphabet
characters; the run is group 1. -/
def findPTag : List Char → Option (List Char)
  | [] => none
  | c :: rest =>
    match c, rest with
    | 'p', '=' :: rest2 =>
      let run := rest2.takeWhile isB64Char
      if run ≠ [] then some run else findPTag rest
    | _, _ => findPTag rest

/-- Decoded byte count of `base64.b64decode` on input drawn from
`[A-Za-z0-9+/=]`: CPython's `binascii.a2b_base64` (non-strict) quad
automaton.  State: pending quad position, consecutive pad count, bytes
emitted so far.  A data character at quad position 1, 2 or 3 emits a byte;
`=` at quad position ≥ 2 completing a quad ends decoding; leftover quad
position at the end of input is an error (`none`, the checker's
`except` branch). -/
def b64lenAux : List Char → Nat → Nat → Nat → Option Nat
  | [], quad_pos, _pads, count => if quad_pos = 0 then some count else none
  | c :: rest, quad_pos, pads, count =>
    if c = '=' then
      if 2 ≤ quad_pos ∧ 4 ≤ quad_pos + (pads + 1) then some count
      else b64lenAux rest quad_pos (pads + 1) count
    else
      match quad_pos with
      | 0 => b64lenAux rest 1 0 count
      | 1 => b64lenAux rest 2 0 (count + 1)
      | 2 => b64lenAux rest 3 0 (count + 1)
      | _ => b64lenAux rest 0 0 (count + 1)

/-- `len(base64.b64decode(s))` for `s` drawn from `[A-Za-z0-9+/=]`. -/
def b64DecodedLen (s : List Char) : Option Nat := b64lenAux s 0 0 0

/-- `DKIMChecker._extract_key_length`: find the `p=` tag's base64 value,
estimate bits as decoded bytes × 8, snap into the 2048/1024/512 buckets;
0 when the tag is missing, empty or undecodable. -/
def extract_key_length (dkim_record : String) : Int :=
  match findPTag dkim_record.data with
  | none => 0
  | some public_key_b64 =>
    if public_key_b64 = [] then 0  -- empty p= means key is revoked
    else
      match b64DecodedLen public_key_b64 with
      | none => 0
      | some key_bytes =>
        let key_length : Int := Int.ofNat (key_bytes * 8)
        if key_length ≥ 2000 then 2048
        else if key_length ≥ 1000 then 1024
        else if key_length ≥ 500 then 512
        else key_length

/-- Python `record[:100]` on a string. -/
def strTake (s : String) (n : Nat) : String := String.mk (s.data.take n)

/-- The discovery loop of `DKIMChecker.check`: the probed selectors that
yield a record, with their records, in probe order (`selector_records`
as an insertion-ordered dict). -/
def dkimSelectorRecords (w : DNSWorld) (domain : String)
    (selectors_to_check : List String) : List (String × String) :=
  selectors_to_check.filterMap (fun selector =>
    match getDkimRecord w domain selector with
    | some record => some (selector, record)
    | none => none)

/-- The `key_lengths` map of DKIM check 2: selector to estimated bits. -/
def dkimKeyLengths (selector_records : List (String × String)) :
    List (String × Int) :=
  selector_records.map (fun sr => (sr.1, extract_key_length sr.2))

/-- The running maximum of DKIM check 2 (`max_key_length`, initially 0). -/
def dkimMaxKeyLength (selector_records : List (String × String)) : Int :=
  (dkimKeyLengths selector_records).foldl
    (fun m kl => if kl.2 > m then kl.2 else m) 0

/-- DKIM check 2: strength of the strongest discovered key. -/
def dkimKeyStep (selector_records : List (String × String)) (result : CheckResult) :
    CheckResult :=
  let key_lengths := dkimKeyLengths selector_records
  let max_key_length := dkimMaxKeyLength selector_records
  let result := { result with
    parsed_data := dictSet result.parsed_data "key_lengths"
      (PVal.intDict key_lengths) }
  let result := { result with
    parsed_data := dictSet result.parsed_data "max_key_length"
      (PVal.int max_key_length) }
  if max_key_length ≥ 2048 then
    addMessage { result with points := result.points + 8 } "success"
      ("DKIM key length: " ++ toString max_key_length ++ " bits (strong)")
  else if max_key_length ≥ 1024 then
    addRemediation
      (addMessage { result with points := result.points + 4 } "warning"
        ("DKIM key length: " ++ toString max_key_length
          ++ " bits (consider upgrading to 2048)"))
      "Upgrade DKIM key to 2048 bits for stronger security"
  else if max_key_length > 0 then
    addRemediation
      (addMessage result "error"
        ("DKIM key length: " ++ toString max_key_length ++ " bits (too weak)"))
      "DKIM key is too short. Upgrade to at least 2048 bits"
  else
    addMessage result "warning" "Could not determine DKIM key length"

/-- The loop of DKIM check 3 (M365): selectors whose CNAME target is truthy
and contains `onmicrosoft.com`, with those targets. -/
def dkimM365Cnames (w : DNSWorld) (domain : String) : List (String × String) :=
  M365_DKIM_SELECTORS.filterMap (fun selector =>
    match getDkimCname w domain selector with
    | some cname =>
      if cname ≠ "" ∧ pyContains (pyLower cname) "onmicrosoft.com" then
        some (selector, cname)
      else none
    | none => none)

/-- DKIM check 3 for Microsoft 365: both standard selectors' CNAMEs must
delegate to onmicrosoft.com. -/
def dkimM365Step (w : DNSWorld) (domain : String) (result : CheckResult) :
    CheckResult :=
  let m365_cnames := dkimM365Cnames w domain
  let m365_selectors_valid := m365_cnames.length
  let result := { result with
    parsed_data := dictSet result.parsed_data "m365_cnames"
      (PVal.strDict m365_cnames) }
  let result := { result with
    parsed_data := dictSet result.parsed_data "m365_selectors_valid"
      (PVal.int m365_selectors_valid) }
  if m365_selectors_valid ≥ 2 then
    addMessage { result with points := result.points + 8 } "success"
      "Both M365 DKIM selectors (selector1, selector2) are configured"
  else if m365_selectors_valid = 1 then
    addRemediation
      (addMessage { result with points := result.points + 4 } "warning"
        "Only one M365 DKIM selector configured")
      "Enable both selector1 and selector2 in Microsoft 365 admin"
  else
    addRemediation
      (addMessage result "error" "M365 DKIM selectors not properly configured")
      "Configure DKIM in Microsoft 365 admin center"

/-- DKIM check 3 for other providers: rotation readiness (≥ 2 selectors). -/
def dkimMultiStep (discovered_selectors : List String) (result : CheckResult) :
    CheckResult :=
  if discovered_selectors.length ≥ 2 then
    addMessage { result with points := result.points + 4 } "success"
      "Multiple DKIM selectors found (good for key rotation)"
  else
    addMessage result "info"
      "Single DKIM selector found. Consider adding a second for key rotation"

/-- `DKIMChecker.check` (25 points). -/
def dkimCheck (w : DNSWorld) (domain : String) (provider : EmailProvider) :
    CheckResult :=
  let result : CheckResult := { control := "dkim", points := 0, max_points := 25 }
  let is_m365 := provider = EmailProvider.microsoft365
  let result := { result with
    parsed_data := dictSet result.parsed_data "provider"
      (PVal.str (providerValue provider)) }
  let result := { result with
    parsed_data := dictSet result.parsed_data "is_m365" (PVal.bool is_m365) }
  let selectors_to_check :=
    if is_m365 then M365_DKIM_SELECTORS else COMMON_DKIM_SELECTORS
  -- discovery loop: selectors yielding a record, with their records
  let selector_records := dkimSelectorRecords w domain selectors_to_check
  let discovered_selectors := selector_records.map (fun sr => sr.1)
  let result := { result with
    raw_records := selector_records.map (fun sr : String × String =>
      sr.1 ++ ": " ++ strTake sr.2 100 ++ "...") }
  let result := { result with
    parsed_data := dictSet result.parsed_data "discovered_selectors"
      (PVal.strList discovered_selectors) }
  let result := { result with
    parsed_data := dictSet result.parsed_data "selector_count"
      (PVal.int discovered_selectors.length) }
  -- Check 1: At least one selector exists
  if discovered_selectors = [] then
    addRemediation (addMessage result "error" "No DKIM selectors found")
      "Configure DKIM signing with your email provider"
  else
    let result :=
      addMessage { result with points := result.points + 5 } "success"
        ("Found " ++ toString discovered_selectors.length ++ " DKIM selector(s): "
          ++ String.intercalate ", " discovered_selectors)
    -- Check 2: Key length
    let result := dkimKeyStep selector_records result
    -- Check 3: M365-specific or multi-selector
    if is_m365 then dkimM365Step w domain result
    else dkimMultiStep discovered_selectors result

/-- `MXChecker.check` (10 points).  The host-resolution lookups fan out to a
worker pool and are collected with `as_completed`, so the order in which
hosts are classified is a scheduling choice, not a function of the DNS
data: it enters here as the explicit `order` argument (a permutation of
the advertised hosts). -/
def mxCheck (w : DNSWorld) (domain : String) (order : List String) : CheckResult :=
  let result : CheckResult := { control := "mx", points := 0, max_points := 10 }
  let mx_records := resolveMx w domain
  let result := { result with
    raw_records := mx_records.map (fun r : Int × String =>
      toString r.1 ++ " " ++ r.2) }
  let result := { result with
    parsed_data := dictSet result.parsed_data "records" (PVal.mxRecs mx_records) }
  -- Check 1: MX records exist
  if mx_records = [] then
    addRemediation (addMessage result "error" "No MX records found")
      "Add MX records to enable email delivery"
  else
    let result :=
      addMessage { result with points := result.points + 5 } "success"
        ("Found " ++ toString mx_records.length ++ " MX record(s)")
    -- Check 2: All MX hosts resolve (concurrent lookups, completion order)
    let resolved := order.filter (fun host => hostExists w host)
    let unresolved := order.filter (fun host => ¬ hostExists w host)
    let result := { result with
      parsed_data := dictSet result.parsed_data "resolved_hosts"
        (PVal.strList resolved) }
    let result := { result with
      parsed_data := dictSet result.parsed_data "unresolved_hosts"
        (PVal.strList unresolved) }
    if unresolved = [] then
      addMessage { result with points := result.points + 5 } "success"
        "All MX hosts resolve correctly"
    else
      addRemediation
        (addMessage result "error"
          ("Dangling MX record(s): " ++ String.intercalate ", " unresolved))
        ("Fix or remove dangling MX records: " ++ String.intercalate ", " unresolved)

/-- `LETTER_GRADES` from `src/scanner/constants.py` (checked highest first). -/
def LETTER_GRADES : List (Int × String) :=
  [(95, "A+"), (90, "A"), (80, "B"), (70, "C"), (60, "D"), (50, "E"), (0, "F")]

/-- `calculate_grade` from `src/scanner/services/scoring_engine.py`. -/
def calculate_grade (score : Int) : String :=
  match LETTER_GRADES.find? (fun tg => score ≥ tg.1) with
  | some tg => tg.2
  | none => "F"

/-- `get_grade_color` from `src/scanner/services/scoring_engine.py`. -/
def get_grade_color (grade : String) : String :=
  dictGetD
    [("A+", "#00c853"), ("A", "#00e676"), ("B", "#2979ff"), ("C", "#ffea00"),
     ("D", "#ff9100"), ("E", "#ff6d00"), ("F", "#ff1744")]
    grade "#666"

/-- `ScanResult` after `calculate_final_score`: the aggregate of one scan.
`checks` holds the four results in the order the engine ran them
(mx, spf, dkim, dmarc — the dict's insertion order). -/
structure ScanResult where
  domain : String
  score : Int
  max_score : Int
  grade : String
  grade_color : String
  score_version : String
  provider : String
  checks : List CheckResult
  all_remediation : List String
deriving DecidableEq, Repr

/-- `ScoringEngine.scan`: resolve MX, detect the provider, run the four
checkers, sum the points, grade.  `mxOrder` is the completion order of the
MX checker's concurrent host lookups (see `mxCheck`). -/
def scan (w : DNSWorld) (domain : String) (mxOrder : List String) : ScanResult :=
  let mx_records := resolveMx w domain
  let provider := detect mx_records
  let mx_result := mxCheck w domain mxOrder
  let spf_result := spfCheck w domain
  let dkim_result := dkimCheck w domain provider
  let dmarc_result := dmarcCheck w domain
  let checks := [mx_result, spf_result, dkim_result, dmarc_result]
  let score := checks.foldl (fun acc c => acc + c.points) 0
  let grade := calculate_grade score
  { domain := domain
    score := score
    max_score := 100
    grade := grade
    grade_color := get_grade_color grade
    score_version := "1.0"
    provider := providerValue provider
    checks := checks
    all_remediation :=
      mx_result.remediation ++ spf_result.remediation
        ++ dkim_result.remediation ++ dmarc_result.remediation }

/-- The points DMARC checks 2-7 add, as one closed formula (proved to agree
with the step chain in `dmarcScoreTags_points`). -/
def dmarcTagPoints (parsed : List (String × String)) : Int :=
  let policy := pyLower (dictGetD parsed "p" "")
  let policyPts : Int :=
    if policy = "reject" then 15 else if policy = "quarantine" then 10 else 0
  let ruaPts : Int := if parseUris (dictGetD parsed "rua" "") ≠ [] then 5 else 0
  let adkim := pyLower (dictGetD parsed "adkim" "r")
  let aspf := pyLower (dictGetD parsed "aspf" "r")
  let strict_count : Int :=
    (if adkim = "s" then 1 else 0) + (if aspf = "s" then 1 else 0)
  let alignPts : Int :=
    if strict_count = 2 then 5 else if strict_count = 1 then 3 else 0
  let fo := dictGetD parsed "fo" "0"
  let foPts : Int :=
    if pyContains fo "1" ∨ pyContains fo "s" ∨ pyContains fo "d" then 3 else 0
  let pct := (pyInt? (dictGetD parsed "pct" "100")).getD 100
  let pctPts : Int := if pct = 100 then 2 else if pct > 0 then 1 else 0
  let sp := pyLower (dictGetD parsed "sp" "")
  let spPts : Int :=
    if sp = "" then 0
    else if sp = policy ∨ (policy = "" ∧ sp = "none") then 2
    else if sp = "reject" ∨ sp = "quarantine" ∨ sp = "none" then 2
    else 0
  policyPts + ruaPts + alignPts + foPts + pctPts + spPts

/-- Quality order on letter grades, for stating monotonicity: better grades
rank higher. -/
def gradeRank : String → Nat
  | "A+" => 6
  | "A" => 5
  | "B" => 4
  | "C" => 3
  | "D" => 2
  | "E" => 1
  | _ => 0

/-- A world whose only record is a DMARC record earning every rule's
points: full credit on checks 1-7. -/
def dmarcFullWorld : DNSWorld :=
  { mxRaw := fun _ => []
    txt := fun d =>
      if d = "_dmarc.example.com" then
        ["v=DMARC1; p=reject; rua=mailto:dmarc@example.com; adkim=s; aspf=s; fo=1; pct=100; sp=reject"]
      else []
    a := fun _ => [], aaaa := fun _ => [], cname := fun _ => none }

/-- A world whose SPF record ends in `+all` after earning existence points. -/
def spfPlusAllWorld : DNSWorld :=
  { mxRaw := fun _ => []
    txt := fun d => if d = "example.com" then ["v=spf1 include:x +all"] else []
    a := fun _ => [], aaaa := fun _ => [], cname := fun _ => none }

/-- A world with two conflicting DMARC records (a misconfiguration). -/
def dmarcDupWorld : DNSWorld :=
  { mxRaw := fun _ => []
    txt := fun d =>
      if d = "_dmarc.example.com" then
        ["v=DMARC1; p=reject; pct=100", "v=DMARC1; p=none"]
      else []
    a := fun _ => [], aaaa := fun _ => [], cname := fun _ => none }

/-- A world whose TXT data is SPF-like but has first token `v=spf10`,
which starts with `v=spf1` without being equal to it. -/
def spfLikeWorld : DNSWorld :=
  { mxRaw := fun _ => []
    txt := fun d => if d = "example.com" then ["v=spf10 -all"] else []
    a := fun _ => [], aaaa := fun _ => [], cname := fun _ => none }

/-- A world whose TXT data holds no record starting with `v=spf1`. -/
def spfAbsentWorld : DNSWorld :=
  { mxRaw := fun _ => []
    txt := fun d =>
      if d = "example.com" then ["hello world", "v=DMARC1; p=none"] else []
    a := fun _ => [], aaaa := fun _ => [], cname := fun _ => none }

/-- A DKIM record whose `p=` value is 344 base64 characters decoding to
exactly 256 bytes (2048 bits). -/
def dkimKey2048Record : String :=
  "v=DKIM1; k=rsa; p=" ++ String.mk (List.replicate 342 'A' ++ ['=', '='])

/-- A DKIM record whose `p=` value decodes to 128 bytes (1024 bits). -/
def dkimKey1024Record : String :=
  "v=DKIM1; k=rsa; p=" ++ String.mk (List.replicate 171 'A' ++ ['='])

/-- A DKIM record with key type but no `p=` tag at all. -/
def dkimNoKeyRecord : String := "v=DKIM1; k=rsa"

/-- A world publishing `dkimKey2048Record` at the `google` selector only. -/
def dkimStrongWorld : DNSWorld :=
  { mxRaw := fun _ => []
    txt := fun d =>
      if d = "google._domainkey.example.com" then [dkimKey2048Record] else []
    a := fun _ => [], aaaa := fun _ => [], cname := fun _ => none }

/-- A world publishing a DKIM record without key material at one selector. -/
def dkimNoKeyWorld : DNSWorld :=
  { mxRaw := fun _ => []
    txt := fun d =>
      if d = "google._domainkey.example.com" then [dkimNoKeyRecord] else []
    a := fun _ => [], aaaa := fun _ => [], cname := fun _ => none }

/-- A world with two MX hosts, both resolving: only the completion order of
the concurrent host checks can distinguish two scans of it. -/
def mxTwoHostsWorld : DNSWorld :=
  { mxRaw := fun d =>
      if d = "example.com" then [(10, "mx1.example.com"), (20, "mx2.example.com")]
      else []
    txt := fun _ => []
    a := fun h =>
      if h = "mx1.example.com" ∨ h = "mx2.example.com" then ["192.0.2.1"] else []
    aaaa := fun _ => [], cname := fun _ => none }

/-! ### Points bookkeeping lemmas -/

theorem addMessage_points (r : CheckResult) (level text : String) :
    (addMessage r level text).points = r.points := rfl

theorem addRemediation_points (r : CheckResult) (text : String) :
    (addRemediation r text).points = r.points := rfl

theorem foldl_syntax_messages_points (l : List String) (r : CheckResult) :
    (l.foldl (fun r e => addMessage r "error" ("Syntax error: " ++ e)) r).points
      = r.points := by
  induction l generalizing r with
  | nil => rfl
  | cons x xs ih => simpa using ih (addMessage r "error" ("Syntax error: " ++ x))

theorem dmarcPolicyStep_points (policy : String) (r : CheckResult) :
    (dmarcPolicyStep policy r).points
      = r.points
        + (if policy = "reject" then 15
           else if policy = "quarantine" then 10 else 0) := by
  unfold dmarcPolicyStep
  split_ifs <;> simp [addMessage, addRemediation]

theorem dmarcRuaStep_points (parsed : List (String × String)) (r : CheckResult) :
    (dmarcRuaStep parsed r).points
      = r.points + (if parseUris (dictGetD parsed "rua" "") ≠ [] then 5 else 0) := by
  unfold dmarcRuaStep
  split_ifs <;> simp_all [addMessage, addRemediation]

theorem dmarcAlignStep_points (parsed : List (String × String)) (r : CheckResult) :
    (dmarcAlignStep parsed r).points
      = r.points
        + (if ((if pyLower (dictGetD parsed "adkim" "r") = "s" then (1 : Int) else 0)
              + (if pyLower (dictGetD parsed "aspf" "r") = "s" then (1 : Int) else 0)) = 2
           then 5
           else if ((if pyLower (dictGetD parsed "adkim" "r") = "s" then (1 : Int) else 0)
              + (if pyLower (dictGetD parsed "aspf" "r") = "s" then (1 : Int) else 0)) = 1
           then 3 else 0) := by
  unfold dmarcAlignStep
  split_ifs <;> simp_all [addMessage, addRemediation]

theorem dmarcFoStep_points (parsed : List (String × String)) (r : CheckResult) :
    (dmarcFoStep parsed r).points
      = r.points
        + (if pyContains (dictGetD parsed "fo" "0") "1"
              ∨ pyContains (dictGetD parsed "fo" "0") "s"
              ∨ pyContains (dictGetD parsed "fo" "0") "d" then 3 else 0) := by
  unfold dmarcFoStep
  split_ifs <;> simp_all [addMessage, addRemediation]

theorem dmarcPctStep_points (parsed : List (String × String)) (r : CheckResult) :
    (dmarcPctStep parsed r).points
      = r.points
        + (if (pyInt? (dictGetD parsed "pct" "100")).getD 100 = 100 then 2
           else if (pyInt? (dictGetD parsed "pct" "100")).getD 100 > 0 then 1
           else 0) := by
  unfold dmarcPctStep
  split_ifs <;> simp_all [addMessage, addRemediation]
  all_goals split_ifs <;> simp_all [addMessage, addRemediation]
  all_goals omega

theorem dmarcSpStep_points (parsed : List (String × String)) (policy : String)
    (r : CheckResult) :
    (dmarcSpStep parsed policy r).points
      = r.points
        + (if pyLower (dictGetD parsed "sp" "") = "" then 0
           else if pyLower (dictGetD parsed "sp" "") = policy
              ∨ (policy = "" ∧ pyLower (dictGetD parsed "sp" "") = "none") then 2
           else if pyLower (dictGetD parsed "sp" "") = "reject"
              ∨ pyLower (dictGetD parsed "sp" "") = "quarantine"
              ∨ pyLower (dictGetD parsed "sp" "") = "none" then 2
           else 0) := by
  unfold dmarcSpStep
  split_ifs <;> simp_all [addMessage, addRemediation]
  all_goals split_ifs <;> simp_all [addMessage, addRemediation]

theorem dmarcScoreTags_points (parsed : List (String × String)) (r : CheckResult) :
    (dmarcScoreTags parsed r).points = r.points + dmarcTagPoints parsed := by
  unfold dmarcScoreTags dmarcTagPoints
  rw [dmarcSpStep_points, dmarcPctStep_points, dmarcFoStep_points,
    dmarcAlignStep_points, dmarcRuaStep_points, dmarcPolicyStep_points]
  ring

theorem dmarcTagPoints_bounds (parsed : List (String × String)) :
    0 ≤ dmarcTagPoints parsed ∧ dmarcTagPoints parsed ≤ 32 := by
  have h1 : ∀ p : String,
      0 ≤ (if p = "reject" then (15 : Int) else if p = "quarantine" then 10 else 0)
      ∧ (if p = "reject" then (15 : Int) else if p = "quarantine" then 10 else 0)
        ≤ 15 := by
    intro p
    split_ifs <;> omega
  have h2 : ∀ l : List String,
      0 ≤ (if l ≠ [] then (5 : Int) else 0)
      ∧ (if l ≠ [] then (5 : Int) else 0) ≤ 5 := by
    intro l
    split_ifs <;> omega
  have h3 : ∀ x y : String,
      0 ≤ (if ((if x = "s" then (1 : Int) else 0) + (if y = "s" then (1 : Int) else 0)) = 2
           then (5 : Int)
           else if ((if x = "s" then (1 : Int) else 0) + (if y = "s" then (1 : Int) else 0)) = 1
           then 3 else 0)
      ∧ (if ((if x = "s" then (1 : Int) else 0) + (if y = "s" then (1 : Int) else 0)) = 2
           then (5 : Int)
           else if ((if x = "s" then (1 : Int) else 0) + (if y = "s" then (1 : Int) else 0)) = 1
           then 3 else 0) ≤ 5 := by
    intro x y
    split_ifs <;> omega
  have h4 : ∀ f : String,
      0 ≤ (if pyContains f "1" ∨ pyContains f "s" ∨ pyContains f "d" then (3 : Int) else 0)
      ∧ (if pyContains f "1" ∨ pyContains f "s" ∨ pyContains f "d" then (3 : Int) else 0)
        ≤ 3 := by
    intro f
    split_ifs <;> omega
  have h5 : ∀ n : Int,
      0 ≤ (if n = 100 then (2 : Int) else if n > 0 then 1 else 0)
      ∧ (if n = 100 then (2 : Int) else if n > 0 then 1 else 0) ≤ 2 := by
    intro n
    split_ifs <;> omega
  have h6 : ∀ sp p : String,
      0 ≤ (if sp = "" then (0 : Int)
           else if sp = p ∨ (p = "" ∧ sp = "none") then 2
           else if sp = "reject" ∨ sp = "quarantine" ∨ sp = "none" then 2
           else 0)
      ∧ (if sp = "" then (0 : Int)
           else if sp = p ∨ (p = "" ∧ sp = "none") then 2
           else if sp = "reject" ∨ sp = "quarantine" ∨ sp = "none" then 2
           else 0) ≤ 2 := by
    intro sp p
    split_ifs <;> omega
  obtain ⟨a1, b1⟩ := h1 (pyLower (dictGetD parsed "p" ""))
  obtain ⟨a2, b2⟩ := h2 (parseUris (dictGetD parsed "rua" ""))
  obtain ⟨a3, b3⟩ := h3 (pyLower (dictGetD parsed "adkim" "r"))
    (pyLower (dictGetD parsed "aspf" "r"))
  obtain ⟨a4, b4⟩ := h4 (dictGetD parsed "fo" "0")
  obtain ⟨a5, b5⟩ := h5 ((pyInt? (dictGetD parsed "pct" "100")).getD 100)
  obtain ⟨a6, b6⟩ := h6 (pyLower (dictGetD parsed "sp" ""))
    (pyLower (dictGetD parsed "p" ""))
  unfold dmarcTagPoints
  dsimp only
  constructor <;> linarith

theorem dmarcCheck_points_of_dup (w : DNSWorld) (d rec : String) (l : List String)
    (h : getDmarcRecord w d = (some rec, l)) (h2 : 1 < l.length) :
    (dmarcCheck w d).points = dmarcTagPoints (parseDmarc rec) := by
  have hne : l ≠ [] := by
    intro hl
    rw [hl] at h2
    simp at h2
  unfold dmarcCheck
  rw [h]
  dsimp only
  rw [if_pos hne, if_pos h2, dmarcScoreTags_points]
  simp [addMessage, addRemediation]

theorem dmarcCheck_points_of_unique (w : DNSWorld) (d rec : String)
    (h : getDmarcRecord w d = (some rec, [rec])) :
    (dmarcCheck w d).points = 10 + dmarcTagPoints (parseDmarc rec) := by
  unfold dmarcCheck
  rw [h]
  dsimp only
  rw [if_pos (by simp : ([rec] : List String) ≠ []),
    if_neg (by simp : ¬ (1 : Nat) < [rec].length), dmarcScoreTags_points]
  simp [addMessage, addRemediation]

theorem dmarcCheck_points_bounds (w : DNSWorld) (d : String) :
    0 ≤ (dmarcCheck w d).points ∧ (dmarcCheck w d).points ≤ 42 := by
  unfold dmarcCheck
  rcases hr : getDmarcRecord w d with ⟨fst, snd⟩
  rcases fst with _ | rec
  · dsimp only
    split_ifs <;> simp [addMessage, addRemediation]
  · dsimp only
    have hb := dmarcTagPoints_bounds (parseDmarc rec)
    split_ifs <;>
      (rw [dmarcScoreTags_points]; simp [addMessage, addRemediation]; omega)

theorem spfSyntaxStep_points (parsed : SPFParse) (r : CheckResult) :
    (spfSyntaxStep parsed r).points
      = r.points
        + (if parsed.syntax_errors = [] ∧ parsed.duplicates = [] then 5 else 0) := by
  unfold spfSyntaxStep
  dsimp only
  split_ifs <;> simp_all [addMessage_points, addRemediation_points,
    foldl_syntax_messages_points]

theorem spfLookupStep_points (parsed : SPFParse) (r : CheckResult) :
    (spfLookupStep parsed r).points
      = r.points + (if parsed.lookup_count ≤ 10 then 2 else 0) := by
  unfold spfLookupStep
  dsimp only
  split_ifs <;> simp_all [addMessage_points, addRemediation_points]

theorem spfHostsStep_points (w : DNSWorld) (parsed : SPFParse) (r : CheckResult) :
    (spfHostsStep w parsed r).points
      = r.points
        + (if parsed.hosts_to_check = []
              ∨ parsed.hosts_to_check.filter (fun host => ¬ hostExists w host) = []
           then 3 else 0) := by
  unfold spfHostsStep
  dsimp only
  split_ifs <;> simp_all [addMessage_points, addRemediation_points]

theorem spfTerminalStep_points (parsed : SPFParse) (r : CheckResult) :
    (spfTerminalStep parsed r).points
      = r.points
        + (if parsed.terminal = some "-all" then 6
           else if parsed.terminal = some "~all" then 3 else 0) := by
  unfold spfTerminalStep
  split_ifs <;> simp_all [addMessage_points, addRemediation_points]

theorem spfHygieneStep_points (parsed : SPFParse) (r : CheckResult) :
    (spfHygieneStep parsed r).points
      = r.points
        + (if ¬ parsed.has_ptr ∧ ¬ parsed.include_count > 5 then 4 else 0) := by
  unfold spfHygieneStep
  dsimp only
  split_ifs <;> simp_all [addMessage_points, addRemediation_points]

theorem spfCheck_points_bounds (w : DNSWorld) (domain : String) :
    0 ≤ (spfCheck w domain).points ∧ (spfCheck w domain).points ≤ 25 := by
  unfold spfCheck
  rcases h : getSpfRecord w domain with _ | s
  · simp [addMessage_points, addRemediation_points]
  · dsimp only
    split_ifs with hall
    · simp [addMessage_points, addRemediation_points]
    · rw [spfHygieneStep_points, spfTerminalStep_points, spfHostsStep_points,
        spfLookupStep_points, spfSyntaxStep_points]
      simp only [addMessage_points]
      split_ifs <;> omega

theorem dkimKeyStep_points (selector_records : List (String × String))
    (r : CheckResult) :
    (dkimKeyStep selector_records r).points
      = r.points
        + (if dkimMaxKeyLength selector_records ≥ 2048 then 8
           else if dkimMaxKeyLength selector_records ≥ 1024 then 4 else 0) := by
  unfold dkimKeyStep
  dsimp only
  split_ifs <;> simp_all [addMessage_points, addRemediation_points]

theorem dkimM365Step_points (w : DNSWorld) (domain : String) (r : CheckResult) :
    (dkimM365Step w domain r).points
      = r.points
        + (if (dkimM365Cnames w domain).length ≥ 2 then 8
           else if (dkimM365Cnames w domain).length = 1 then 4 else 0) := by
  unfold dkimM365Step
  dsimp only
  split_ifs <;> simp_all [addMessage_points, addRemediation_points]

theorem dkimMultiStep_points (discovered_selectors : List String)
    (r : CheckResult) :
    (dkimMultiStep discovered_selectors r).points
      = r.points + (if discovered_selectors.length ≥ 2 then 4 else 0) := by
  unfold dkimMultiStep
  split_ifs <;> simp_all [addMessage_points, addRemediation_points]

theorem dkimCheck_points_bounds (w : DNSWorld) (domain : String)
    (provider : EmailProvider) :
    0 ≤ (dkimCheck w domain provider).points
      ∧ (dkimCheck w domain provider).points ≤ 21 := by
  unfold dkimCheck
  dsimp only
  split_ifs <;>
    first
      | (simp [addMessage_points, addRemediation_points]; done)
      | (rw [dkimM365Step_points, dkimKeyStep_points];
         simp only [addMessage_points];
         split_ifs <;> omega)
      | (rw [dkimMultiStep_points, dkimKeyStep_points];
         simp only [addMessage_points];
         split_ifs <;> omega)

theorem mxCheck_points_eq (w : DNSWorld) (domain : String) (order : List String) :
    (mxCheck w domain order).points
      = if resolveMx w domain = [] then 0
        else 5 + (if order.filter (fun host => ¬ hostExists w host) = []
                  then 5 else 0) := by
  unfold mxCheck
  dsimp only
  split_ifs <;> simp_all [addMessage_points, addRemediation_points]

theorem mxCheck_points_bounds (w : DNSWorld) (domain : String)
    (order : List String) :
    0 ≤ (mxCheck w domain order).points ∧ (mxCheck w domain order).points ≤ 10 := by
  rw [mxCheck_points_eq]
  split_ifs <;> omega

theorem scan_score_eq (w : DNSWorld) (domain : String) (mxOrder : List String) :
    (scan w domain mxOrder).score
      = (mxCheck w domain mxOrder).points + (spfCheck w domain).points
        + (dkimCheck w domain (detect (resolveMx w domain))).points
        + (dmarcCheck w domain).points := by
  unfold scan
  dsimp only
  simp [List.foldl]

/-- C1 (code_bug): a single well-formed DMARC record earning every rule
(`p=reject`, valid `rua`, strict `adkim`/`aspf`, `fo=1`, `pct=100`,
aligned `sp`) is scored 10+15+5+5+3+2+2 = 42 points by `DMARCChecker.check`,
yet the control's `max_points` is 40: the invariant points ≤ max_points
fails on the DMARC checker. -/
theorem dmarc_points_can_exceed_max_points :
    (dmarcCheck dmarcFullWorld "example.com").points = 42
      ∧ (dmarcCheck dmarcFullWorld "example.com").max_points = 40 := by
  decide

/-- C2: for every world, domain and completion order, the scan's total
score is exactly the sum of the four controls' points, and lies within
0..100 (the four per-control bounds give at most 10+25+21+42 = 98). -/
theorem scan_score_sum_of_checks_bounded (w : DNSWorld) (domain : String)
    (mxOrder : List String) :
    (scan w domain mxOrder).score
      = (mxCheck w domain mxOrder).points + (spfCheck w domain).points
        + (dkimCheck w domain (detect (resolveMx w domain))).points
        + (dmarcCheck w domain).points
    ∧ 0 ≤ (scan w domain mxOrder).score
    ∧ (scan w domain mxOrder).score ≤ 100 := by
  have hmx := mxCheck_points_bounds w domain mxOrder
  have hspf := spfCheck_points_bounds w domain
  have hdkim := dkimCheck_points_bounds w domain (detect (resolveMx w domain))
  have hdmarc := dmarcCheck_points_bounds w domain
  have hsum := scan_score_eq w domain mxOrder
  refine ⟨hsum, ?_, ?_⟩ <;> rw [hsum] <;> linarith

/-- C7: the grade boundaries of `calculate_grade` over `LETTER_GRADES`:
95 is the lowest A+, 90 the lowest A, 80 the lowest B, 50 the lowest E,
and everything below 50 is an F. -/
theorem grade_boundary_table :
    calculate_grade 95 = "A+" ∧ calculate_grade 94 = "A"
      ∧ calculate_grade 90 = "A" ∧ calculate_grade 89 = "B"
      ∧ calculate_grade 80 = "B" ∧ calculate_grade 79 = "C"
      ∧ calculate_grade 50 = "E" ∧ calculate_grade 49 = "F"
      ∧ calculate_grade 0 = "F" := by
  decide

/-- C3: whenever the fetched SPF record parses with terminal `+all` (bare
`all` already became `+all` in the parser), the SPF check returns 0 points
regardless of anything already earned, with exactly the existence success
message plus a single error message, and no further check's message or
remediation: the checker returned immediately. -/
theorem spf_plus_all_zeroes_points (w : DNSWorld) (domain s : String)
    (hrec : getSpfRecord w domain = some s)
    (hterm : (parseSpf s).terminal = some "+all") :
    (spfCheck w domain).points = 0
      ∧ (spfCheck w domain).messages
          = [("success", "SPF record found"),
             ("error", "SPF uses +all which allows anyone to spoof your domain")]
      ∧ (spfCheck w domain).remediation
          = ["Change +all to -all to reject unauthorized senders"] := by
  unfold spfCheck
  rw [hrec]
  dsimp only
  rw [if_pos hterm]
  simp [addMessage, addRemediation]

theorem spf_plus_all_zeroes_points_witness :
    (spfCheck spfPlusAllWorld "example.com").points = 0
      ∧ (spfCheck spfPlusAllWorld "example.com").messages
          = [("success", "SPF record found"),
             ("error", "SPF uses +all which allows anyone to spoof your domain")]
      ∧ (spfCheck spfPlusAllWorld "example.com").remediation
          = ["Change +all to -all to reject unauthorized senders"] :=
  spf_plus_all_zeroes_points spfPlusAllWorld "example.com" "v=spf1 include:x +all"
    (by decide) (by decide)

/-- C4: when the `_dmarc` lookup yields two or more `v=dmarc1` records, the
10 existence points are withheld and the total is exactly the tag points of
the parsed first record; with exactly one record the same tag points plus
the 10 existence points are awarded. -/
theorem dmarc_duplicate_records_withhold_existence (w : DNSWorld) (d rec : String)
    (l : List String) (h : getDmarcRecord w d = (some rec, l)) :
    (2 ≤ l.length →
      (dmarcCheck w d).points = dmarcTagPoints (parseDmarc rec))
    ∧ (l = [rec] →
      (dmarcCheck w d).points = 10 + dmarcTagPoints (parseDmarc rec)) := by
  constructor
  · intro h2
    exact dmarcCheck_points_of_dup w d rec l h (by omega)
  · intro h1
    rw [h1] at h
    exact dmarcCheck_points_of_unique w d rec h

theorem dmarc_duplicate_records_withhold_existence_witness :
    ((dmarcCheck dmarcDupWorld "example.com").points
        = dmarcTagPoints (parseDmarc "v=DMARC1; p=reject; pct=100"))
      ∧ ((dmarcCheck dmarcFullWorld "example.com").points
        = 10 + dmarcTagPoints (parseDmarc
            "v=DMARC1; p=reject; rua=mailto:dmarc@example.com; adkim=s; aspf=s; fo=1; pct=100; sp=reject")) :=
  ⟨(dmarc_duplicate_records_withhold_existence dmarcDupWorld "example.com"
      "v=DMARC1; p=reject; pct=100"
      ["v=DMARC1; p=reject; pct=100", "v=DMARC1; p=none"] (by decide)).1 (by decide),
   (dmarc_duplicate_records_withhold_existence dmarcFullWorld "example.com"
      "v=DMARC1; p=reject; rua=mailto:dmarc@example.com; adkim=s; aspf=s; fo=1; pct=100; sp=reject"
      ["v=DMARC1; p=reject; rua=mailto:dmarc@example.com; adkim=s; aspf=s; fo=1; pct=100; sp=reject"]
      (by decide)).2 rfl⟩

/-- C5: the `sp` tag's four ordered cases in `DMARCChecker.check`: absent
(or empty) scores 0 with an informational message; equal to the parent
policy, or parent absent with `sp=none`, scores +2 with success; any other
valid policy value scores +2 with an informational divergence message;
anything else scores 0 with a warning. -/
theorem dmarc_sp_tag_scoring (parsed : List (String × String)) (policy : String)
    (r : CheckResult) :
    (pyLower (dictGetD parsed "sp" "") = "" →
      dmarcSpStep parsed policy r
        = addMessage r "info" "No subdomain policy (sp) set - inherits parent policy")
    ∧ (pyLower (dictGetD parsed "sp" "") ≠ "" →
      (pyLower (dictGetD parsed "sp" "") = policy
          ∨ (policy = "" ∧ pyLower (dictGetD parsed "sp" "") = "none")) →
      (dmarcSpStep parsed policy r).points = r.points + 2
        ∧ (dmarcSpStep parsed policy r).messages
            = r.messages
              ++ [("success",
                  "Subdomain policy (sp=" ++ pyLower (dictGetD parsed "sp" "")
                    ++ ") is set")])
    ∧ (pyLower (dictGetD parsed "sp" "") ≠ "" →
      ¬ (pyLower (dictGetD parsed "sp" "") = policy
          ∨ (policy = "" ∧ pyLower (dictGetD parsed "sp" "") = "none")) →
      (pyLower (dictGetD parsed "sp" "") = "reject"
        ∨ pyLower (dictGetD parsed "sp" "") = "quarantine"
        ∨ pyLower (dictGetD parsed "sp" "") = "none") →
      (dmarcSpStep parsed policy r).points = r.points + 2
        ∧ (dmarcSpStep parsed policy r).messages
            = r.messages
              ++ [("info",
                  "Subdomain policy (sp=" ++ pyLower (dictGetD parsed "sp" "")
                    ++ ") differs from parent (" ++ policy ++ ")")])
    ∧ (pyLower (dictGetD parsed "sp" "") ≠ "" →
      ¬ (pyLower (dictGetD parsed "sp" "") = policy
          ∨ (policy = "" ∧ pyLower (dictGetD parsed "sp" "") = "none")) →
      ¬ (pyLower (dictGetD parsed "sp" "") = "reject"
        ∨ pyLower (dictGetD parsed "sp" "") = "quarantine"
        ∨ pyLower (dictGetD parsed "sp" "") = "none") →
      (dmarcSpStep parsed policy r).points = r.points
        ∧ (dmarcSpStep parsed policy r).messages
            = r.messages
              ++ [("warning",
                  "Invalid subdomain policy: sp="
                    ++ pyLower (dictGetD parsed "sp" ""))]) := by
  refine ⟨?_, ?_, ?_, ?_⟩
  · intro h0
    unfold dmarcSpStep
    simp [h0]
  · intro h0 h1
    unfold dmarcSpStep
    simp [h0, h1, addMessage]
  · intro h0 h1 h2
    unfold dmarcSpStep
    simp [h0, h1, h2, addMessage]
  · intro h0 h1 h2
    unfold dmarcSpStep
    simp [h0, h1, h2, addMessage]

theorem dmarc_sp_tag_scoring_witness :
    (dmarcSpStep [("sp", "none")] "reject"
        { control := "dmarc", points := 0, max_points := 40 }).points = 0 + 2
      ∧ (dmarcSpStep [("sp", "none")] "reject"
          { control := "dmarc", points := 0, max_points := 40 }).messages
        = [] ++ [("info", "Subdomain policy (sp=" ++ pyLower (dictGetD [("sp", "none")] "sp" "")
            ++ ") differs from parent (" ++ "reject" ++ ")")] := by
  have h := (dmarc_sp_tag_scoring [("sp", "none")] "reject"
    { control := "dmarc", points := 0, max_points := 40 }).2.2.1
    (by decide) (by decide) (by decide)
  simpa using h

set_option maxRecDepth 40000 in
/-- C8: DKIM key-length scoring.  For a non-Microsoft-365 provider with at
least one discovered selector, the check's points decompose as existence
(+5) plus the bucketed maximum estimated key length (2048 → +8, 1024 → +4,
else +0) plus rotation readiness; the estimate is the base64-decoded byte
length of the `p=` value × 8 snapped into buckets (≥2000→2048, ≥1000→1024,
≥500→512, else raw), so a 256-byte key normalizes to 2048 and earns +8,
while an absent or undecodable `p=` yields 0 with the "cannot determine"
warning instead of a weak-key error. -/
theorem dkim_key_length_scoring (w : DNSWorld) (domain : String)
    (provider : EmailProvider) :
    (provider ≠ EmailProvider.microsoft365 →
      dkimSelectorRecords w domain COMMON_DKIM_SELECTORS ≠ [] →
      (dkimCheck w domain provider).points
        = 5
          + (if dkimMaxKeyLength (dkimSelectorRecords w domain COMMON_DKIM_SELECTORS)
                ≥ 2048 then 8
             else if dkimMaxKeyLength (dkimSelectorRecords w domain COMMON_DKIM_SELECTORS)
                ≥ 1024 then 4
             else 0)
          + (if (dkimSelectorRecords w domain COMMON_DKIM_SELECTORS).length ≥ 2
             then 4 else 0))
      ∧ extract_key_length dkimKey2048Record = 2048
      ∧ extract_key_length dkimKey1024Record = 1024
      ∧ extract_key_length ("p=" ++ String.mk (List.replicate 86 'A' ++ ['=', '='])) = 512
      ∧ extract_key_length ("p=" ++ String.mk (List.replicate 43 'A' ++ ['='])) = 256
      ∧ extract_key_length "v=DKIM1; k=rsa; p=AAAAA" = 0
      ∧ extract_key_length dkimNoKeyRecord = 0
      ∧ (dkimCheck dkimStrongWorld "example.com" EmailProvider.unknown).points = 5 + 8
      ∧ (dkimCheck dkimNoKeyWorld "example.com" EmailProvider.unknown).points = 5
      ∧ (dkimCheck dkimNoKeyWorld "example.com" EmailProvider.unknown).messages
          = [("success", "Found 1 DKIM selector(s): google"),
             ("warning", "Could not determine DKIM key length"),
             ("info", "Single DKIM selector found. Consider adding a second for key rotation")] := by
  refine ⟨?_, by decide, by decide, by decide, by decide, by decide, by decide,
    by decide, by decide, by decide⟩
  intro hp hne
  unfold dkimCheck
  dsimp only
  simp only [if_neg hp]
  rw [if_neg (by simpa using hne)]
  rw [dkimMultiStep_points, dkimKeyStep_points]
  simp only [addMessage_points, List.length_map]
  ring

set_option maxRecDepth 40000 in
theorem dkim_key_length_scoring_witness :
    (dkimCheck dkimStrongWorld "example.com" EmailProvider.unknown).points
      = 5
        + (if dkimMaxKeyLength
              (dkimSelectorRecords dkimStrongWorld "example.com" COMMON_DKIM_SELECTORS)
              ≥ 2048 then 8
           else if dkimMaxKeyLength
              (dkimSelectorRecords dkimStrongWorld "example.com" COMMON_DKIM_SELECTORS)
              ≥ 1024 then 4
           else 0)
        + (if (dkimSelectorRecords dkimStrongWorld "example.com" COMMON_DKIM_SELECTORS).length
              ≥ 2 then 4 else 0) :=
  (dkim_key_length_scoring dkimStrongWorld "example.com" EmailProvider.unknown).1
    (by decide) (by decide)

theorem mxCheck_points_perm (w : DNSWorld) (domain : String)
    (o1 o2 : List String) (hperm : o1.Perm o2) :
    (mxCheck w domain o1).points = (mxCheck w domain o2).points := by
  rw [mxCheck_points_eq, mxCheck_points_eq]
  have hfil : (o1.filter (fun host => ¬ hostExists w host)).Perm
      (o2.filter (fun host => ¬ hostExists w host)) := hperm.filter _
  by_cases h1 : o1.filter (fun host => ¬ hostExists w host) = []
  · have h2 : o2.filter (fun host => ¬ hostExists w host) = [] :=
      (h1 ▸ hfil).symm.eq_nil
    rw [h1, h2]
  · have h2 : o2.filter (fun host => ¬ hostExists w host) ≠ [] := by
      intro h2
      exact h1 (h2 ▸ hfil).eq_nil
    rw [if_neg h1, if_neg h2]

/-- C9 counterexample: with two advertised MX hosts that both resolve, two
runs over unchanged DNS data that differ only in the completion order of
the concurrent host lookups produce different `ScanResult`s (the
`resolved_hosts` list of the MX control is permuted), so a rescan is not
guaranteed to reproduce an identical result. -/
theorem scan_completion_order_counterexample :
    ["mx1.example.com", "mx2.example.com"].Perm
        ((resolveMx mxTwoHostsWorld "example.com").map Prod.snd)
      ∧ ["mx2.example.com", "mx1.example.com"].Perm
        ((resolveMx mxTwoHostsWorld "example.com").map Prod.snd)
      ∧ scan mxTwoHostsWorld "example.com" ["mx1.example.com", "mx2.example.com"]
          ≠ scan mxTwoHostsWorld "example.com" ["mx2.example.com", "mx1.example.com"] := by
  decide

/-- C9 amended: scanning twice with unchanged DNS responses yields the same
total score, grade and per-control points for any two completion orders of
the MX host checks, and the resolved/unresolved host lists agree as
multisets; but their order (and hence the full `ScanResult`, including the
MX `parsed_data` and the host-naming message text) can differ between runs,
because `as_completed` yields hosts in completion order. -/
theorem scan_order_invariant_scores (w : DNSWorld) (d : String)
    (o1 o2 : List String)
    (h1 : o1.Perm ((resolveMx w d).map Prod.snd))
    (h2 : o2.Perm ((resolveMx w d).map Prod.snd)) :
    (scan w d o1).score = (scan w d o2).score
      ∧ (scan w d o1).grade = (scan w d o2).grade
      ∧ (scan w d o1).checks.map CheckResult.points
          = (scan w d o2).checks.map CheckResult.points
      ∧ (o1.filter (fun host => hostExists w host)).Perm
          (o2.filter (fun host => hostExists w host))
      ∧ (o1.filter (fun host => ¬ hostExists w host)).Perm
          (o2.filter (fun host => ¬ hostExists w host)) := by
  have hperm : o1.Perm o2 := h1.trans h2.symm
  have hmx := mxCheck_points_perm w d o1 o2 hperm
  have hscore : (scan w d o1).score = (scan w d o2).score := by
    rw [scan_score_eq, scan_score_eq, hmx]
  refine ⟨hscore, by rw [show (scan w d o1).grade = calculate_grade (scan w d o1).score from rfl,
      show (scan w d o2).grade = calculate_grade (scan w d o2).score from rfl, hscore],
    ?_, hperm.filter _, hperm.filter _⟩
  show [(mxCheck w d o1).points, (spfCheck w d).points, _, _]
      = [(mxCheck w d o2).points, (spfCheck w d).points, _, _]
  rw [hmx]

theorem scan_order_invariant_scores_witness :
    (scan mxTwoHostsWorld "example.com" ["mx1.example.com", "mx2.example.com"]).score
        = (scan mxTwoHostsWorld "example.com" ["mx2.example.com", "mx1.example.com"]).score
      ∧ (scan mxTwoHostsWorld "example.com" ["mx1.example.com", "mx2.example.com"]).grade
        = (scan mxTwoHostsWorld "example.com" ["mx2.example.com", "mx1.example.com"]).grade
      ∧ (scan mxTwoHostsWorld "example.com" ["mx1.example.com", "mx2.example.com"]).checks.map
            CheckResult.points
        = (scan mxTwoHostsWorld "example.com" ["mx2.example.com", "mx1.example.com"]).checks.map
            CheckResult.points
      ∧ (["mx1.example.com", "mx2.example.com"].filter
            (fun host => hostExists mxTwoHostsWorld host)).Perm
          (["mx2.example.com", "mx1.example.com"].filter
            (fun host => hostExists mxTwoHostsWorld host))
      ∧ (["mx1.example.com", "mx2.example.com"].filter
            (fun host => ¬ hostExists mxTwoHostsWorld host)).Perm
          (["mx2.example.com", "mx1.example.com"].filter
            (fun host => ¬ hostExists mxTwoHostsWorld host)) :=
  scan_order_invariant_scores mxTwoHostsWorld "example.com"
    ["mx1.example.com", "mx2.example.com"] ["mx2.example.com", "mx1.example.com"]
    (by decide) (by decide)

theorem calculate_grade_eq (s : Int) :
    calculate_grade s
      = if s ≥ 95 then "A+"
        else if s ≥ 90 then "A"
        else if s ≥ 80 then "B"
        else if s ≥ 70 then "C"
        else if s ≥ 60 then "D"
        else if s ≥ 50 then "E"
        else "F" := by
  unfold calculate_grade LETTER_GRADES
  by_cases h1 : s ≥ 95
  · rw [List.find?_cons_of_pos _ (by simpa using h1)]
    simp [h1]
  rw [List.find?_cons_of_neg _ (by simpa using h1)]
  by_cases h2 : s ≥ 90
  · rw [List.find?_cons_of_pos _ (by simpa using h2)]
    simp [h1, h2]
  rw [List.find?_cons_of_neg _ (by simpa using h2)]
  by_cases h3 : s ≥ 80
  · rw [List.find?_cons_of_pos _ (by simpa using h3)]
    simp [h1, h2, h3]
  rw [List.find?_cons_of_neg _ (by simpa using h3)]
  by_cases h4 : s ≥ 70
  · rw [List.find?_cons_of_pos _ (by simpa using h4)]
    simp [h1, h2, h3, h4]
  rw [List.find?_cons_of_neg _ (by simpa using h4)]
  by_cases h5 : s ≥ 60
  · rw [List.find?_cons_of_pos _ (by simpa using h5)]
    simp [h1, h2, h3, h4, h5]
  rw [List.find?_cons_of_neg _ (by simpa using h5)]
  by_cases h6 : s ≥ 50
  · rw [List.find?_cons_of_pos _ (by simpa using h6)]
    simp [h1, h2, h3, h4, h5, h6]
  rw [List.find?_cons_of_neg _ (by simpa using h6)]
  by_cases h7 : s ≥ 0
  · rw [List.find?_cons_of_pos _ (by simpa using h7)]
    simp [h1, h2, h3, h4, h5, h6, h7]
  · rw [List.find?_cons_of_neg _ (by simpa using h7)]
    simp [h1, h2, h3, h4, h5, h6, h7, List.find?]

set_option maxHeartbeats 1000000 in
/-- C10: `calculate_grade` is total on all integers — every score, negative
or above 100, maps to one of the seven grades, every score below 50 maps
to "F" — and it is monotone: a lower score never receives a better grade
(`gradeRank` orders the grades by quality). -/
theorem calculate_grade_total_monotone (s s1 s2 : Int) (h : s1 ≤ s2) :
    (calculate_grade s = "A+" ∨ calculate_grade s = "A" ∨ calculate_grade s = "B"
      ∨ calculate_grade s = "C" ∨ calculate_grade s = "D" ∨ calculate_grade s = "E"
      ∨ calculate_grade s = "F")
    ∧ (s < 50 → calculate_grade s = "F")
    ∧ gradeRank (calculate_grade s1) ≤ gradeRank (calculate_grade s2) := by
  refine ⟨?_, ?_, ?_⟩
  · rw [calculate_grade_eq]
    split_ifs <;> simp
  · intro hs
    rw [calculate_grade_eq]
    split_ifs <;> first | rfl | omega
  · rw [calculate_grade_eq, calculate_grade_eq]
    split_ifs <;> simp [gradeRank] <;> omega

theorem calculate_grade_total_monotone_witness :
    (calculate_grade (-7) = "A+" ∨ calculate_grade (-7) = "A"
      ∨ calculate_grade (-7) = "B" ∨ calculate_grade (-7) = "C"
      ∨ calculate_grade (-7) = "D" ∨ calculate_grade (-7) = "E"
      ∨ calculate_grade (-7) = "F")
    ∧ calculate_grade (-7) = "F"
    ∧ gradeRank (calculate_grade 59) ≤ gradeRank (calculate_grade 94) := by
  have h := calculate_grade_total_monotone (-7) 59 94 (by omega)
  exact ⟨h.1, h.2.1 (by omega), h.2.2⟩

/-- C6 counterexample: `"v=spf10 -all"` is an SPF-like record (the resolver
returns it, since it starts with `v=spf1`) whose first token does not equal
`v=spf1`, yet the SPF check scores the full 25 points and records zero
syntax errors: both the resolver and the parser test `startswith`, not
equality, so the claim as stated is false. -/
theorem spf_nonequal_version_token_counterexample :
    spfLikeWorld.txt "example.com" = ["v=spf10 -all"]
      ∧ pySplitWs "v=spf10 -all" = ["v=spf10", "-all"]
      ∧ "v=spf10" ≠ "v=spf1"
      ∧ getSpfRecord spfLikeWorld "example.com" = some "v=spf10 -all"
      ∧ (spfCheck spfLikeWorld "example.com").points = 25
      ∧ (parseSpf "v=spf10 -all").syntax_errors = [] := by
  decide

/-- C6 amended: the test is a case-insensitive prefix test, not equality.
A record whose first token does not *start with* `v=spf1` is rejected by
`_parse_spf` with exactly one syntax error; and since the resolver also
only returns records starting with `v=spf1`, a domain none of whose TXT
records start with `v=spf1` completes the SPF check without crashing, with
0 points and exactly one recorded error message. -/
theorem spf_missing_version_amended (w : DNSWorld) (domain s p0 : String)
    (rest : List String) :
    (pySplitWs s = p0 :: rest → ¬ pyStartsWith (pyLower p0) "v=spf1" →
      (parseSpf s).syntax_errors = ["Missing or invalid v=spf1"])
    ∧ ((∀ record ∈ w.txt domain, ¬ pyStartsWith (pyLower record) "v=spf1") →
      (spfCheck w domain).points = 0
        ∧ (spfCheck w domain).messages = [("error", "No SPF record found")]) := by
  constructor
  · intro hsplit hpre
    unfold parseSpf
    rw [hsplit]
    simp [hpre]
  · intro hall
    have hnone : getSpfRecord w domain = none := by
      unfold getSpfRecord
      rw [List.find?_eq_none]
      intro record hmem
      simpa using hall record hmem
    unfold spfCheck
    rw [hnone]
    simp [addMessage, addRemediation]

theorem spf_missing_version_amended_witness :
    ((parseSpf "v=spf2 -all").syntax_errors = ["Missing or invalid v=spf1"])
      ∧ ((spfCheck spfAbsentWorld "example.com").points = 0
        ∧ (spfCheck spfAbsentWorld "example.com").messages
            = [("error", "No SPF record found")]) :=
  ⟨(spf_missing_version_amended spfAbsentWorld "example.com" "v=spf2 -all"
      "v=spf2" ["-all"]).1 (by decide) (by decide),
   (spf_missing_version_amended spfAbsentWorld "example.com" "v=spf2 -all"
      "v=spf2" ["-all"]).2 (by decide)⟩
